import Mathlib

/-!
Verification of the gantry pick-and-place backend.

This file is a shallow embedding, in Lean 4, of the Python sources
`positions.py`, `robot.py` and `robot_state_machine.py` of the gantry
pick-and-place exercise, together with theorems checking the natural
language specification's claims against that embedding.

Coordinates are modelled as real numbers (the Python code manipulates
floats; the table-B geometry involves `sqrt 2`, so exact reals are the
faithful idealisation).  The asynchronous state machine is modelled as an
explicit event-step function on a machine-state record: each spawned
per-state action is represented by its entry-time effects (latching the
move target, clearing the deferred-home flag) and its completion-time
effects (committing the robot position, snapshotting the working targets,
and firing the next trigger through `change_state`).
-/

namespace Gantry

/-! ### positions.py : work area and table polygons -/

noncomputable section

/-- `WORK_AREA_SIZE = 2000`. -/
def WORK_AREA_SIZE : ℝ := 2000

/-- `TABLE_DISTANCE_FROM_EDGE = 100`. -/
def TABLE_DISTANCE_FROM_EDGE : ℝ := 100

/-- `TABLE_SIZE = 500`. -/
def TABLE_SIZE : ℝ := 500

/-- `TABLE_A_CORNER_X = -(WORK_AREA_SIZE / 2 - TABLE_DISTANCE_FROM_EDGE)`. -/
def TABLE_A_CORNER_X : ℝ := -(WORK_AREA_SIZE / 2 - TABLE_DISTANCE_FROM_EDGE)

/-- `TABLE_A_CORNER_Y = -TABLE_A_CORNER_X`. -/
def TABLE_A_CORNER_Y : ℝ := -TABLE_A_CORNER_X

/-- `TABLE_A_CENTER_X = TABLE_A_CORNER_X + TABLE_SIZE / 2`. -/
def TABLE_A_CENTER_X : ℝ := TABLE_A_CORNER_X + TABLE_SIZE / 2

/-- `TABLE_A_CENTER_Y = TABLE_A_CORNER_Y - TABLE_SIZE / 2`. -/
def TABLE_A_CENTER_Y : ℝ := TABLE_A_CORNER_Y - TABLE_SIZE / 2

/-- `TABLE_B_RIGHT_CORNER_X = WORK_AREA_SIZE / 2 - TABLE_DISTANCE_FROM_EDGE`. -/
def TABLE_B_RIGHT_CORNER_X : ℝ := WORK_AREA_SIZE / 2 - TABLE_DISTANCE_FROM_EDGE

/-- `TABLE_B_BOTTOM_CORNER_Y = -TABLE_B_RIGHT_CORNER_X`. -/
def TABLE_B_BOTTOM_CORNER_Y : ℝ := -TABLE_B_RIGHT_CORNER_X

/-- `TABLE_B_CORNER_TO_CENTER = TABLE_SIZE / math.sqrt(2)`. -/
def TABLE_B_CORNER_TO_CENTER : ℝ := TABLE_SIZE / Real.sqrt 2

/-- `TABLE_B_CENTER_X = TABLE_B_RIGHT_CORNER_X - TABLE_B_CORNER_TO_CENTER`. -/
def TABLE_B_CENTER_X : ℝ := TABLE_B_RIGHT_CORNER_X - TABLE_B_CORNER_TO_CENTER

/-- `TABLE_B_CENTER_Y = TABLE_B_BOTTOM_CORNER_Y + TABLE_B_CORNER_TO_CENTER`. -/
def TABLE_B_CENTER_Y : ℝ := TABLE_B_BOTTOM_CORNER_Y + TABLE_B_CORNER_TO_CENTER

end

/-- Interior of `TABLE_SQUARE = box(-TABLE_SIZE/2, -TABLE_SIZE/2, TABLE_SIZE/2,
TABLE_SIZE/2)`.  Shapely's `Polygon.contains(Point)` holds exactly on the
interior of the polygon (boundary points are not contained). -/
def tableSquareContains (x y : ℝ) : Prop :=
  -(TABLE_SIZE / 2) < x ∧ x < TABLE_SIZE / 2 ∧ -(TABLE_SIZE / 2) < y ∧ y < TABLE_SIZE / 2

/-- `TABLE_A_POLYGON = affinity.translate(TABLE_SQUARE, TABLE_A_CENTER_X,
TABLE_A_CENTER_Y)`: a point is inside the translated polygon iff the point
translated back is inside `TABLE_SQUARE`. -/
def tableAContains (x y : ℝ) : Prop :=
  tableSquareContains (x - TABLE_A_CENTER_X) (y - TABLE_A_CENTER_Y)

/-- `rotated_table_b_polygon = affinity.rotate(TABLE_SQUARE, 45, origin="center")`:
a point is inside the square rotated by 45 degrees about the origin iff the
point rotated back by 45 degrees, i.e. `((x + y)/sqrt 2, (y - x)/sqrt 2)`,
is inside `TABLE_SQUARE`. -/
def rotatedTableBContains (x y : ℝ) : Prop :=
  tableSquareContains ((x + y) / Real.sqrt 2) ((y - x) / Real.sqrt 2)

/-- `TABLE_B_POLYGON = affinity.translate(rotated_table_b_polygon,
TABLE_B_CENTER_X, TABLE_B_CENTER_Y)`. -/
def tableBContains (x y : ℝ) : Prop :=
  rotatedTableBContains (x - TABLE_B_CENTER_X) (y - TABLE_B_CENTER_Y)

/-- Membership in the bounded `WORK_AREA_SIZE` by `WORK_AREA_SIZE` square work
area centred at the origin. -/
def workAreaContains (x y : ℝ) : Prop :=
  -(WORK_AREA_SIZE / 2) ≤ x ∧ x ≤ WORK_AREA_SIZE / 2 ∧
    -(WORK_AREA_SIZE / 2) ≤ y ∧ y ≤ WORK_AREA_SIZE / 2

/-- `class Position(BaseModel)`: three numeric fields `x`, `y`, `z`. -/
structure Position where
  x : ℝ
  y : ℝ
  z : ℝ

/-- `Position.to_list(self) = [self.x, self.y, self.z]`. -/
def Position.to_list (p : Position) : List ℝ := [p.x, p.y, p.z]

/-- `Position.from_list(pos) = cls(x=pos[0], y=pos[1], z=pos[2])`; indexing a
list shorter than three elements raises, modelled as `none`. -/
def Position.from_list : List ℝ → Option Position
  | x :: y :: z :: _ => some ⟨x, y, z⟩
  | _ => none

/-- `class CubePosition(Position)` constrains `z` by
`Field(default=0, ge=0, le=0)`. -/
def CubePosition.zOk (z : ℝ) : Prop := 0 ≤ z ∧ z ≤ 0

/-- Construction of a `CubeStartPosition` succeeds iff the pydantic field
constraint on `z` holds and `model_post_init` finds `(x, y)` inside
`TABLE_A_POLYGON` (otherwise it raises `ValueError`). -/
def CubeStartPosition.valid (p : Position) : Prop :=
  CubePosition.zOk p.z ∧ tableAContains p.x p.y

/-- Construction of a `CubeDestinationPosition` succeeds iff the pydantic
field constraint on `z` holds and `model_post_init` finds `(x, y)` inside
`TABLE_B_POLYGON`. -/
def CubeDestinationPosition.valid (p : Position) : Prop :=
  CubePosition.zOk p.z ∧ tableBContains p.x p.y

/-! ### robot.py and the robot_sim collaborator state -/

/-- `robot_sim.GripperState`. -/
inductive GripperState where
  | OPEN
  | CLOSED
deriving DecidableEq

/-- The state of the simulated robot actuator underneath `Robot`: current
position, home position, gripper state, and the internal motion-planning
`axis_speed` that `Robot.set_home_position` resets.  The coordinate type is
a parameter: the sequence-controller level uses `ℝ`, and the claims about
the convergence loop are settled over `ℚ`, where position equality is
decidable, exactly as the Python code compares float lists with `!=`. -/
structure SimState (α : Type) where
  current_position : List α
  home_position : List α
  gripper_state : GripperState
  axis_speed : List α

/-- `REGULAR_MOVEMENT_SPEED = 95`. -/
def REGULAR_MOVEMENT_SPEED : ℕ := 95

/-- `HOME_MOVEMENT_SPEED = 50`. -/
def HOME_MOVEMENT_SPEED : ℕ := 50

/-- `Robot.set_home_position`: stores the position and then sets
`self._robot_sim.axis_speed = [0, 0, 0]` to force a motion replan. -/
def set_home_position (s : SimState ℚ) (position : List ℚ) : SimState ℚ :=
  { s with home_position := position, axis_speed := [0, 0, 0] }

/-- `Robot.get_home_position`. -/
def get_home_position {α : Type} (s : SimState α) : List α := s.home_position

/-- `Robot.get_current_position`. -/
def get_current_position {α : Type} (s : SimState α) : List α := s.current_position

/-- `Robot.gripper_is_open`. -/
def gripper_is_open {α : Type} (s : SimState α) : Bool :=
  decide (s.gripper_state = GripperState.OPEN)

/-- The outcome of a convergence loop: either the final simulator state or
the error string of the raised `RuntimeError`, together with the number of
calls made to the motion primitive. -/
structure MoveOutcome (α : Type) where
  result : Except String (SimState α)
  ticks : ℕ

/-- The convergence loop of `Robot.move_to_position`:
`while current_position != target: result = step(); if result.error: raise`.
The Python loop is unbounded; `fuel` bounds the number of remaining
iterations in the embedding, and `none` means the loop did not converge
within `fuel` ticks (the Python code would keep spinning). -/
def moveToLoop {α : Type} [DecidableEq α]
    (step : SimState α → SimState α × Option String) (target : List α) :
    ℕ → SimState α → ℕ → Option (MoveOutcome α)
  | 0, s, n => if s.current_position = target then some ⟨Except.ok s, n⟩ else none
  | fuel + 1, s, n =>
    if s.current_position = target then some ⟨Except.ok s, n⟩
    else
      match step s with
      | (_, some e) => some ⟨Except.error e, n + 1⟩
      | (s', none) => moveToLoop step target fuel s' (n + 1)

/-- `Robot.move_to_position(position)`: each tick calls
`self._robot_sim.move_to(target_position=position, speed=REGULAR_MOVEMENT_SPEED)`.
The motion primitive `prim` is the external `robot_sim` collaborator: given
the simulator state, a target and a speed it returns the next simulator
state and an optional error. -/
def move_to_position {α : Type} [DecidableEq α]
    (prim : SimState α → List α → ℕ → SimState α × Option String)
    (fuel : ℕ) (s : SimState α) (position : List α) : Option (MoveOutcome α) :=
  moveToLoop (fun s0 => prim s0 position REGULAR_MOVEMENT_SPEED) position fuel s 0

/-- The convergence loop of `Robot.move_to_home_position`:
`while current_position != home_position: result = step(); if error: raise`.
Note the home position is re-read from the state on every iteration. -/
def moveHomeLoop {α : Type} [DecidableEq α]
    (step : SimState α → SimState α × Option String) :
    ℕ → SimState α → ℕ → Option (MoveOutcome α)
  | 0, s, n =>
    if s.current_position = s.home_position then some ⟨Except.ok s, n⟩ else none
  | fuel + 1, s, n =>
    if s.current_position = s.home_position then some ⟨Except.ok s, n⟩
    else
      match step s with
      | (_, some e) => some ⟨Except.error e, n + 1⟩
      | (s', none) => moveHomeLoop step fuel s' (n + 1)

/-- `Robot.move_to_home_position()`: each tick calls
`self._robot_sim.move_home(speed=HOME_MOVEMENT_SPEED)`. -/
def move_to_home_position {α : Type} [DecidableEq α]
    (prim_home : SimState α → ℕ → SimState α × Option String)
    (fuel : ℕ) (s : SimState α) : Option (MoveOutcome α) :=
  moveHomeLoop (fun s0 => prim_home s0 HOME_MOVEMENT_SPEED) fuel s 0

/-- `Robot.open_gripper`: waits the actuation delay, then commits the
gripper-state change (the delay has no effect on the stored state). -/
def open_gripper {α : Type} (s : SimState α) : SimState α :=
  { s with gripper_state := GripperState.OPEN }

/-- `Robot.close_gripper`. -/
def close_gripper {α : Type} (s : SimState α) : SimState α :=
  { s with gripper_state := GripperState.CLOSED }

/-! ### robot_state_machine.py : the sequence controller -/

/-- The concrete states of the hierarchical machine: the state groups
`Picking`, `Transporting`, `Placing`, `SequenceFinished` and `Home` with
their sub-states, plus the implicit initial state `ready` and the fault
state of the base machine. -/
inductive RState where
  | ready
  | picking_moving
  | picking_lowering
  | picking_closing
  | transporting_lifting
  | transporting_moving
  | placing_lowering
  | placing_opening
  | placing_lifting
  | sequence_finished
  | home_home
  | home_moving
  | home_opening
  | fault
deriving DecidableEq

/-- The triggers of `class Triggers`, plus the base machine's global
`TO_FAULT` trigger used by the `spawn` wrapper. -/
inductive Trig where
  | start
  | finished_moving_above_cube
  | finished_lowering_for_pickup
  | finished_closing_gripper
  | finished_lifting_cube
  | finished_moving_above_destination
  | finished_lowering_for_placement
  | finished_opening_gripper_for_placement
  | finished_lifting_after_placement
  | home
  | finished_moving_to_home
  | finished_opening_gripper_at_home
  | to_fault
deriving DecidableEq

/-- The `TRANSITIONS` table: the destination state for a trigger fired in a
given state, or `none` when no transition matches.  `Triggers.home` uses the
wildcard source `"*"`, so it matches every state; the base machine's
`TO_FAULT` trigger likewise reaches `fault` from every state (modelled from
the spec: the global-to-fault trigger of the base `StateMachine`, which is
not part of the sources, is reachable from anywhere). -/
def findTransition : Trig → RState → Option RState
  | .start, .ready => some .picking_moving
  | .start, .home_home => some .picking_moving
  | .finished_moving_above_cube, .picking_moving => some .picking_lowering
  | .finished_lowering_for_pickup, .picking_lowering => some .picking_closing
  | .finished_closing_gripper, .picking_closing => some .transporting_lifting
  | .finished_lifting_cube, .transporting_lifting => some .transporting_moving
  | .finished_moving_above_destination, .transporting_moving => some .placing_lowering
  | .finished_lowering_for_placement, .placing_lowering => some .placing_opening
  | .finished_opening_gripper_for_placement, .placing_opening => some .placing_lifting
  | .finished_lifting_after_placement, .placing_lifting => some .sequence_finished
  | .home, _ => some .home_moving
  | .finished_moving_to_home, .home_moving => some .home_opening
  | .finished_opening_gripper_at_home, .home_opening => some .home_home
  | .to_fault, _ => some .fault
  | _, _ => none

/-- `IDLE_STATES = ["ready", str(States.home.home), str(States.sequence_finished.finished)]`. -/
def IDLE_STATES : List RState := [.ready, .home_home, .sequence_finished]

noncomputable section

/-- `LIFTING_HEIGHT_ABOVE_TABLE: int = 300`. -/
def LIFTING_HEIGHT_ABOVE_TABLE : ℝ := 300

/-- `DEFAULT_CUBE_START_POSITION = CubeStartPosition(x=TABLE_A_POLYGON.centroid.x,
y=TABLE_A_POLYGON.centroid.y, z=0)`.  The centroid of the translated square
`TABLE_A_POLYGON` is its centre `(TABLE_A_CENTER_X, TABLE_A_CENTER_Y)`. -/
def DEFAULT_CUBE_START_POSITION : Position :=
  ⟨TABLE_A_CENTER_X, TABLE_A_CENTER_Y, 0⟩

/-- `DEFAULT_DESTINATION_POSITION = CubeDestinationPosition(x=TABLE_B_POLYGON.centroid.x,
y=TABLE_B_POLYGON.centroid.y, z=0)`.  The centroid of the rotated and
translated square `TABLE_B_POLYGON` is its centre
`(TABLE_B_CENTER_X, TABLE_B_CENTER_Y)`. -/
def DEFAULT_DESTINATION_POSITION : Position :=
  ⟨TABLE_B_CENTER_X, TABLE_B_CENTER_Y, 0⟩

/-- The mutable state of a `RobotStateMachine` instance: the current machine
state, the pending (`next_*`) and working (`_cube_*`) targets, the
deferred-home flag, the owned robot simulator state, and `action_target`,
the move target read by the in-flight action's coroutine when it starts
(the claims never depend on the latching time except through the committed
robot position). -/
structure MachineState where
  state : RState
  next_cube_start_position : Position
  next_cube_end_position : Position
  cube_start_position : Position
  cube_end_position : Position
  move_home_requested : Bool
  robot : SimState ℝ
  action_target : List ℝ

/-- `RobotStateMachine.__init__`: the machine starts in the implicit initial
state `ready` (modelled from the spec: the initial state of the base
`StateMachine` is the implicit `ready` state, corroborated by `IDLE_STATES`
and the `start` transitions sourced at `"ready"`), with pending and working
targets both set to the default centroid positions and the deferred-home
flag clear.  The freshly constructed `Robot()` simulator state is a
parameter. -/
def initMachine (r : SimState ℝ) : MachineState where
  state := .ready
  next_cube_start_position := DEFAULT_CUBE_START_POSITION
  next_cube_end_position := DEFAULT_DESTINATION_POSITION
  cube_start_position := DEFAULT_CUBE_START_POSITION
  cube_end_position := DEFAULT_DESTINATION_POSITION
  move_home_requested := false
  robot := r
  action_target := []

/-- `RobotStateMachine.robot_is_idle`. -/
def robot_is_idle (m : MachineState) : Bool := decide (m.state ∈ IDLE_STATES)

/-- The entry effects of the `@on_enter_state` hooks: the spawned coroutine's
reads that happen when it starts, before it suspends — the move target of
the motion states, and, for `home.moving`, clearing `_move_home_requested`.
States without an entry action (`ready`, `home.home`,
`sequence_finished.finished`, `fault`) and the pure gripper states latch
nothing. -/
def enterState (m : MachineState) : MachineState :=
  match m.state with
  | .picking_moving =>
    { m with action_target := [m.next_cube_start_position.x,
        m.next_cube_start_position.y, LIFTING_HEIGHT_ABOVE_TABLE] }
  | .picking_lowering => { m with action_target := m.cube_start_position.to_list }
  | .transporting_lifting =>
    { m with action_target := [m.cube_start_position.x,
        m.cube_start_position.y, LIFTING_HEIGHT_ABOVE_TABLE] }
  | .transporting_moving =>
    { m with action_target := [m.next_cube_end_position.x,
        m.next_cube_end_position.y, LIFTING_HEIGHT_ABOVE_TABLE] }
  | .placing_lowering => { m with action_target := m.cube_end_position.to_list }
  | .placing_lifting =>
    { m with action_target := [m.cube_end_position.x,
        m.cube_end_position.y, LIFTING_HEIGHT_ABOVE_TABLE] }
  | .home_moving =>
    { m with move_home_requested := false, action_target := m.robot.home_position }
  | _ => m

/-- `StateMachine.trigger`, modelled from the spec and from the `transitions`
library underneath the missing `state_machine.core` wrapper (`api.py`
catches `transitions.MachineError`): firing a trigger that has a transition
from the current state moves to its destination and runs that state's entry
hook; firing a trigger with no matching transition raises `MachineError`
and leaves the machine unchanged (the `Or-stay` alternative). -/
def fireTriggerOrStay (t : Trig) (m : MachineState) : MachineState :=
  match findTransition t m.state with
  | some s => enterState { m with state := s }
  | none => m

/-- `RobotStateMachine._change_state`: fire `Triggers.home` instead of the
natural trigger when `_move_home_requested` is set. -/
def change_state (m : MachineState) (t : Trig) : MachineState :=
  fireTriggerOrStay (if m.move_home_requested then Trig.home else t) m

/-- `RobotStateMachine.move_home`: fire `home` immediately when idle,
otherwise set the deferred-home flag and let the current action finish. -/
def move_home (m : MachineState) : MachineState :=
  if robot_is_idle m then fireTriggerOrStay Trig.home m
  else { m with move_home_requested := true }

/-- `StateMachine.start`, modelled from the spec and the source comment "We
want start() to always trigger start": it fires the `start` trigger, and the
`transitions` library raises `MachineError` — surfaced as the Conflict
error — when no `start` transition leaves the current state.  The boolean
records whether the trigger fired; on failure the machine is returned
unchanged. -/
def startOp (m : MachineState) : Bool × MachineState :=
  match findTransition Trig.start m.state with
  | some _ => (true, fireTriggerOrStay Trig.start m)
  | none => (false, m)

/-- Helper for completion effects of the motion states: the convergence loop
has driven the robot's current position to the latched move target. -/
def robotArrived (m : MachineState) : MachineState :=
  { m with robot := { m.robot with current_position := m.action_target } }

/-- Successful completion of the in-flight per-state action: the awaited
robot call has finished (committing the robot position or gripper state),
the working-target snapshots of `_move_above_cube` and
`_move_above_destination` are taken from the pending targets as they are at
completion time, and the natural trigger is passed to `_change_state`.
States without an in-flight action complete nothing. -/
def completeAction (m : MachineState) : MachineState :=
  match m.state with
  | .picking_moving =>
    change_state
      { (robotArrived m) with cube_start_position := m.next_cube_start_position }
      .finished_moving_above_cube
  | .picking_lowering => change_state (robotArrived m) .finished_lowering_for_pickup
  | .picking_closing =>
    change_state { m with robot := close_gripper m.robot } .finished_closing_gripper
  | .transporting_lifting => change_state (robotArrived m) .finished_lifting_cube
  | .transporting_moving =>
    change_state
      { (robotArrived m) with cube_end_position := m.next_cube_end_position }
      .finished_moving_above_destination
  | .placing_lowering => change_state (robotArrived m) .finished_lowering_for_placement
  | .placing_opening =>
    change_state { m with robot := open_gripper m.robot }
      .finished_opening_gripper_for_placement
  | .placing_lifting => change_state (robotArrived m) .finished_lifting_after_placement
  | .home_moving => change_state (robotArrived m) .finished_moving_to_home
  | .home_opening =>
    change_state { m with robot := open_gripper m.robot }
      .finished_opening_gripper_at_home
  | _ => m

/-- The `RobotStateMachine.spawn` wrapper: an exception raised inside the
spawned coroutine (for instance the `RuntimeError` of a Motion Fault) is
caught and `BaseTriggers.TO_FAULT` is fired instead of letting the
exception escape. -/
def failAction (m : MachineState) : MachineState :=
  fireTriggerOrStay Trig.to_fault m

/-- The externally visible events that drive a `RobotStateMachine`: the
`start()` and `move_home()` commands, the pending-target setters of
`api.py`, and the completion or failure of the in-flight spawned action. -/
inductive Ev where
  | startEv
  | reqHome
  | complete
  | fail
  | setStart (p : Position)
  | setEnd (p : Position)

/-- One event step. -/
def stepEv (m : MachineState) : Ev → MachineState
  | .startEv => (startOp m).2
  | .reqHome => move_home m
  | .complete => completeAction m
  | .fail => failAction m
  | .setStart p => { m with next_cube_start_position := p }
  | .setEnd p => { m with next_cube_end_position := p }

/-- Run a list of events. -/
def runEv (m : MachineState) (evs : List Ev) : MachineState := evs.foldl stepEv m

/-- The sequence of machine states observed along a run, starting state
included. -/
def traceEv : MachineState → List Ev → List RState
  | m, [] => [m.state]
  | m, e :: es => m.state :: traceEv (stepEv m e) es

/-- An event list contains no completion of the `picking.moving` action — the
only step at which `_move_above_cube` writes the working source target. -/
def sourceSnapshotFree : MachineState → List Ev → Prop
  | _, [] => True
  | m, .complete :: es =>
    m.state ≠ .picking_moving ∧ sourceSnapshotFree (completeAction m) es
  | m, e :: es => sourceSnapshotFree (stepEv m e) es

/-- An event list contains no completion of the `transporting.moving` action —
the only step at which `_move_above_destination` writes the working
destination target. -/
def destSnapshotFree : MachineState → List Ev → Prop
  | _, [] => True
  | m, .complete :: es =>
    m.state ≠ .transporting_moving ∧ destSnapshotFree (completeAction m) es
  | m, e :: es => destSnapshotFree (stepEv m e) es

/-- The states whose entry spawns an asynchronous per-state action. -/
def isActionState : RState → Bool
  | .picking_moving | .picking_lowering | .picking_closing
  | .transporting_lifting | .transporting_moving
  | .placing_lowering | .placing_opening | .placing_lifting
  | .home_moving | .home_opening => true
  | _ => false

/-! ### Concrete instances used by the closed-form checks -/

/-- A concrete robot simulator state over `ℝ`. -/
def simEx : SimState ℝ := ⟨[0, 0, 0], [0, 0, 0], GripperState.OPEN, [0, 0, 0]⟩

/-- A freshly constructed machine moved (for the sake of a concrete check)
into the `sequence_finished.finished` state. -/
def mFin : MachineState := { initMachine simEx with state := RState.sequence_finished }

/-- A machine in the busy state `picking.closing`. -/
def mBusy : MachineState := { initMachine simEx with state := RState.picking_closing }

/-- A busy machine with the deferred-home flag set. -/
def mFlagged : MachineState := { mBusy with move_home_requested := true }

/-- A machine in the `fault` state. -/
def mFault : MachineState := { initMachine simEx with state := RState.fault }

/-- A machine in the `picking.lowering` state (the picking stage has started
and the working source target has been snapshotted). -/
def mLowering : MachineState :=
  { initMachine simEx with state := RState.picking_lowering }

/-- The events of one fault-free full cycle: `start()` followed by the
successful completion of each of the eight spawned actions. -/
def cycleEvs : List Ev :=
  [.startEv, .complete, .complete, .complete, .complete, .complete, .complete,
    .complete, .complete]

/-- Events that overwrite the pending source target while `picking.moving` is
still in flight, then let the action complete. -/
def overwriteEvs : List Ev :=
  [.startEv, .setStart ⟨-650, 600, 0⟩, .complete]

/-- Events that overwrite both pending targets after the source snapshot has
been taken, with two action completions in between. -/
def lateOverwriteEvs : List Ev :=
  [.setStart ⟨-650, 600, 0⟩, .complete, .setEnd ⟨-650, 600, 0⟩, .complete]

end

/-- A concrete robot simulator state over `ℚ`, whose position comparisons are
decidable. -/
def simQ : SimState ℚ := ⟨[0, 0, 0], [1, 1, 1], GripperState.OPEN, [0, 0, 0]⟩

/-- A motion primitive that reaches the target in a single tick and never
reports an error. -/
def primJump (s : SimState ℚ) (target : List ℚ) (_speed : ℕ) :
    SimState ℚ × Option String :=
  ({ s with current_position := target }, none)

/-- A motion primitive that reports an error on every call. -/
def primBoom (s : SimState ℚ) (_target : List ℚ) (_speed : ℕ) :
    SimState ℚ × Option String :=
  (s, some "motion error")

/-- A homing primitive that reaches the home position in a single tick. -/
def primHomeJump (s : SimState ℚ) (_speed : ℕ) : SimState ℚ × Option String :=
  ({ s with current_position := s.home_position }, none)

/-- A homing primitive that reports an error on every call. -/
def primHomeBoom (s : SimState ℚ) (_speed : ℕ) : SimState ℚ × Option String :=
  (s, some "homing error")

/-! ### Helper lemmas: numerics of the table geometry -/

theorem sqrt_two_gt : (1.4 : ℝ) < Real.sqrt 2 := by
  rw [show (1.4 : ℝ) < Real.sqrt 2 ↔ (1.4 : ℝ) ^ 2 < 2 from Real.lt_sqrt (by norm_num)]
  norm_num

theorem sqrt_two_lt : Real.sqrt 2 < 1.5 := by
  rw [Real.sqrt_lt' (by norm_num)]
  norm_num

theorem sqrt_two_pos : (0 : ℝ) < Real.sqrt 2 :=
  lt_trans (by norm_num) sqrt_two_gt

theorem sqrt_two_sq : Real.sqrt 2 * Real.sqrt 2 = 2 :=
  Real.mul_self_sqrt (by norm_num)

theorem corner_to_center_eq : TABLE_B_CORNER_TO_CENTER = 250 * Real.sqrt 2 := by
  unfold TABLE_B_CORNER_TO_CENTER TABLE_SIZE
  rw [div_eq_iff (ne_of_gt sqrt_two_pos), mul_assoc, sqrt_two_sq]
  norm_num

theorem tableA_center_x : TABLE_A_CENTER_X = -650 := by
  norm_num [TABLE_A_CENTER_X, TABLE_A_CORNER_X, WORK_AREA_SIZE,
    TABLE_DISTANCE_FROM_EDGE, TABLE_SIZE]

theorem tableA_center_y : TABLE_A_CENTER_Y = 650 := by
  norm_num [TABLE_A_CENTER_Y, TABLE_A_CORNER_Y, TABLE_A_CORNER_X, WORK_AREA_SIZE,
    TABLE_DISTANCE_FROM_EDGE, TABLE_SIZE]

theorem tableA_bounds {x y : ℝ} (h : tableAContains x y) :
    -900 < x ∧ x < -400 ∧ 400 < y ∧ y < 900 := by
  simp only [tableAContains, tableSquareContains, tableA_center_x, tableA_center_y,
    TABLE_SIZE] at h
  obtain ⟨h1, h2, h3, h4⟩ := h
  exact ⟨by linarith, by linarith, by linarith, by linarith⟩

theorem tableB_bounds {x y : ℝ} (h : tableBContains x y) :
    900 - 500 * Real.sqrt 2 < x ∧ x < 900 ∧
      -900 < y ∧ y < -900 + 500 * Real.sqrt 2 := by
  have hs := sqrt_two_pos
  simp only [tableBContains, rotatedTableBContains, tableSquareContains,
    TABLE_B_CENTER_X, TABLE_B_CENTER_Y, TABLE_B_RIGHT_CORNER_X,
    TABLE_B_BOTTOM_CORNER_Y, corner_to_center_eq, TABLE_SIZE, WORK_AREA_SIZE,
    TABLE_DISTANCE_FROM_EDGE] at h
  obtain ⟨h1, h2, h3, h4⟩ := h
  rw [lt_div_iff₀ hs] at h1 h3
  rw [div_lt_iff₀ hs] at h2 h4
  exact ⟨by linarith, by linarith, by linarith, by linarith⟩

theorem tableA_contains_center : tableAContains TABLE_A_CENTER_X TABLE_A_CENTER_Y := by
  unfold tableAContains tableSquareContains
  rw [sub_self, sub_self]
  norm_num [TABLE_SIZE]

theorem tableB_contains_center : tableBContains TABLE_B_CENTER_X TABLE_B_CENTER_Y := by
  unfold tableBContains rotatedTableBContains tableSquareContains
  rw [sub_self, sub_self]
  norm_num [TABLE_SIZE]

theorem not_tableA_origin : ¬ tableAContains 0 0 := by
  intro h
  have := (tableA_bounds h).2.1
  norm_num at this

/-! ### Claim C8: zone-constrained construction and list round-trip -/

/-- C8: for every coordinate whose `(x, y)` lies inside the corresponding
zone polygon and whose `z` equals the reference height `0`, constructing the
zone-constrained coordinate (`CubeStartPosition` for the source zone,
`CubeDestinationPosition` for the destination zone) succeeds and
`from_list(to_list(p))` reproduces the three numeric fields exactly;
construction fails whenever the containment check fails. -/
theorem zone_construction_roundtrip (x y z : ℝ) :
    (tableAContains x y → z = 0 →
      CubeStartPosition.valid ⟨x, y, z⟩ ∧
        Position.from_list (Position.to_list ⟨x, y, z⟩) = some ⟨x, y, z⟩) ∧
    (tableBContains x y → z = 0 →
      CubeDestinationPosition.valid ⟨x, y, z⟩ ∧
        Position.from_list (Position.to_list ⟨x, y, z⟩) = some ⟨x, y, z⟩) ∧
    (¬ tableAContains x y → ¬ CubeStartPosition.valid ⟨x, y, z⟩) ∧
    (¬ tableBContains x y → ¬ CubeDestinationPosition.valid ⟨x, y, z⟩) := by
  refine ⟨fun hA hz => ⟨⟨?_, hA⟩, rfl⟩, fun hB hz => ⟨⟨?_, hB⟩, rfl⟩,
    fun hA hv => hA hv.2, fun hB hv => hB hv.2⟩ <;>
    exact hz ▸ ⟨le_refl 0, le_refl 0⟩

/-- Closed check for C8: both centroids construct successfully and round-trip
through `to_list`/`from_list`, and a point outside table A is rejected. -/
theorem zone_construction_roundtrip_witness :
    CubeStartPosition.valid ⟨TABLE_A_CENTER_X, TABLE_A_CENTER_Y, 0⟩ ∧
    Position.from_list (Position.to_list ⟨TABLE_A_CENTER_X, TABLE_A_CENTER_Y, 0⟩) =
      some ⟨TABLE_A_CENTER_X, TABLE_A_CENTER_Y, 0⟩ ∧
    CubeDestinationPosition.valid ⟨TABLE_B_CENTER_X, TABLE_B_CENTER_Y, 0⟩ ∧
    ¬ CubeStartPosition.valid ⟨0, 0, 0⟩ := by
  obtain ⟨hA, -, -, -⟩ :=
    zone_construction_roundtrip TABLE_A_CENTER_X TABLE_A_CENTER_Y 0
  obtain ⟨-, hB, -, -⟩ :=
    zone_construction_roundtrip TABLE_B_CENTER_X TABLE_B_CENTER_Y 0
  obtain ⟨-, -, hN, -⟩ := zone_construction_roundtrip 0 0 0
  obtain ⟨h1, h2⟩ := hA tableA_contains_center rfl
  exact ⟨h1, h2, (hB tableB_contains_center rfl).1, hN not_tableA_origin⟩

/-! ### Claim C9: the two table polygons are disjoint and inside the work area -/

/-- C9: the source zone polygon (`TABLE_A_POLYGON`, an axis-aligned 500 by 500
square) and the destination zone polygon (`TABLE_B_POLYGON`, a 500 by 500
square rotated 45 degrees) have no point in common, and both lie within the
bounded 2000 by 2000 square work area. -/
theorem tables_disjoint_and_bounded :
    (∀ x y : ℝ, ¬ (tableAContains x y ∧ tableBContains x y)) ∧
    (∀ x y : ℝ, tableAContains x y → workAreaContains x y) ∧
    (∀ x y : ℝ, tableBContains x y → workAreaContains x y) := by
  have h15 := sqrt_two_lt
  have h14 := sqrt_two_gt
  refine ⟨?_, ?_, ?_⟩
  · rintro x y ⟨hA, hB⟩
    have bA := tableA_bounds hA
    have bB := tableB_bounds hB
    have hx1 := bA.2.1
    have hx2 := bB.1
    linarith
  · intro x y hA
    have bA := tableA_bounds hA
    simp only [workAreaContains, WORK_AREA_SIZE]
    obtain ⟨b1, b2, b3, b4⟩ := bA
    exact ⟨by linarith, by linarith, by linarith, by linarith⟩
  · intro x y hB
    have bB := tableB_bounds hB
    simp only [workAreaContains, WORK_AREA_SIZE]
    obtain ⟨b1, b2, b3, b4⟩ := bB
    exact ⟨by linarith, by linarith, by linarith, by linarith⟩

/-- Closed check for C9: the origin is in neither polygon simultaneously, and
each table's centre lies in the work area. -/
theorem tables_disjoint_and_bounded_witness :
    ¬ (tableAContains 0 0 ∧ tableBContains 0 0) ∧
    workAreaContains TABLE_A_CENTER_X TABLE_A_CENTER_Y ∧
    workAreaContains TABLE_B_CENTER_X TABLE_B_CENTER_Y :=
  ⟨tables_disjoint_and_bounded.1 0 0,
    tables_disjoint_and_bounded.2.1 _ _ tableA_contains_center,
    tables_disjoint_and_bounded.2.2 _ _ tableB_contains_center⟩

/-! ### Helper lemmas: frame properties of the machine steps

The working targets `cube_start_position` and `cube_end_position` are written
only by `completeAction` in the states `picking_moving` and
`transporting_moving` respectively; every other step of the machine leaves
them untouched. -/

theorem enterState_frame (m : MachineState) :
    (enterState m).state = m.state ∧
    (enterState m).cube_start_position = m.cube_start_position ∧
    (enterState m).cube_end_position = m.cube_end_position := by
  obtain ⟨s, p, q, c, d, f, r, g⟩ := m
  cases s <;> exact ⟨rfl, rfl, rfl⟩

theorem fireTriggerOrStay_cube (t : Trig) (m : MachineState) :
    (fireTriggerOrStay t m).cube_start_position = m.cube_start_position ∧
    (fireTriggerOrStay t m).cube_end_position = m.cube_end_position := by
  unfold fireTriggerOrStay
  split
  · exact ⟨(enterState_frame _).2.1, (enterState_frame _).2.2⟩
  · exact ⟨rfl, rfl⟩

theorem change_state_cube (m : MachineState) (t : Trig) :
    (change_state m t).cube_start_position = m.cube_start_position ∧
    (change_state m t).cube_end_position = m.cube_end_position :=
  fireTriggerOrStay_cube _ _

theorem completeAction_cube_start (m : MachineState)
    (h : m.state ≠ RState.picking_moving) :
    (completeAction m).cube_start_position = m.cube_start_position := by
  obtain ⟨s, p, q, c, d, f, r, g⟩ := m
  cases s
  case picking_moving => exact absurd rfl h
  all_goals first
    | rfl
    | exact (change_state_cube _ _).1

theorem completeAction_cube_end (m : MachineState)
    (h : m.state ≠ RState.transporting_moving) :
    (completeAction m).cube_end_position = m.cube_end_position := by
  obtain ⟨s, p, q, c, d, f, r, g⟩ := m
  cases s
  case transporting_moving => exact absurd rfl h
  all_goals first
    | rfl
    | exact (change_state_cube _ _).2

theorem startOp_cube (m : MachineState) :
    ((startOp m).2).cube_start_position = m.cube_start_position ∧
    ((startOp m).2).cube_end_position = m.cube_end_position := by
  unfold startOp
  split
  · exact fireTriggerOrStay_cube _ _
  · exact ⟨rfl, rfl⟩

theorem move_home_cube (m : MachineState) :
    (move_home m).cube_start_position = m.cube_start_position ∧
    (move_home m).cube_end_position = m.cube_end_position := by
  unfold move_home
  split
  · exact fireTriggerOrStay_cube _ _
  · exact ⟨rfl, rfl⟩

theorem runEv_cube_start (evs : List Ev) :
    ∀ m : MachineState, sourceSnapshotFree m evs →
      (runEv m evs).cube_start_position = m.cube_start_position := by
  induction evs with
  | nil => intro m _; rfl
  | cons e es ih =>
    intro m h
    cases e with
    | startEv => exact (ih _ h).trans (startOp_cube m).1
    | reqHome => exact (ih _ h).trans (move_home_cube m).1
    | complete =>
      obtain ⟨h1, h2⟩ := h
      exact (ih _ h2).trans (completeAction_cube_start m h1)
    | fail => exact (ih _ h).trans (fireTriggerOrStay_cube _ m).1
    | setStart p => exact ih _ h
    | setEnd p => exact ih _ h

theorem runEv_cube_end (evs : List Ev) :
    ∀ m : MachineState, destSnapshotFree m evs →
      (runEv m evs).cube_end_position = m.cube_end_position := by
  induction evs with
  | nil => intro m _; rfl
  | cons e es ih =>
    intro m h
    cases e with
    | startEv => exact (ih _ h).trans (startOp_cube m).2
    | reqHome => exact (ih _ h).trans (move_home_cube m).2
    | complete =>
      obtain ⟨h1, h2⟩ := h
      exact (ih _ h2).trans (completeAction_cube_end m h1)
    | fail => exact (ih _ h).trans (fireTriggerOrStay_cube _ m).2
    | setStart p => exact ih _ h
    | setEnd p => exact ih _ h

/-! ### Claim C1: working-target snapshots -/

/-- C1 (amended): the working source target is written only when the
`picking.moving` action *completes* (and the working destination target only
when the `transporting.moving` action completes) — not on entry as the claim
states.  Consequently, along any sequence of events that contains no
completion of `picking.moving`, overwriting the pending source target never
changes the working source target used by `picking.lowering` and
`transporting.lifting`; symmetrically for the destination target and
completions of `transporting.moving`.  (An overwrite while `picking.moving`
or `transporting.moving` is still in flight does reach the working target,
see the counterexample.) -/
theorem working_snapshot_isolated (m : MachineState) (evs : List Ev) :
    (sourceSnapshotFree m evs →
      (runEv m evs).cube_start_position = m.cube_start_position) ∧
    (destSnapshotFree m evs →
      (runEv m evs).cube_end_position = m.cube_end_position) :=
  ⟨runEv_cube_start evs m, runEv_cube_end evs m⟩

/-- Closed check for C1: from `picking.lowering`, overwriting both pending
targets and completing two further actions leaves both working targets
unchanged. -/
theorem working_snapshot_isolated_witness :
    sourceSnapshotFree mLowering lateOverwriteEvs ∧
    destSnapshotFree mLowering lateOverwriteEvs ∧
    (runEv mLowering lateOverwriteEvs).cube_start_position =
      mLowering.cube_start_position ∧
    (runEv mLowering lateOverwriteEvs).cube_end_position =
      mLowering.cube_end_position := by
  have hs : sourceSnapshotFree mLowering lateOverwriteEvs :=
    ⟨by decide, by decide, trivial⟩
  have hd : destSnapshotFree mLowering lateOverwriteEvs :=
    ⟨by decide, by decide, trivial⟩
  exact ⟨hs, hd, (working_snapshot_isolated mLowering lateOverwriteEvs).1 hs,
    (working_snapshot_isolated mLowering lateOverwriteEvs).2 hd⟩

/-- Counterexample to C1 as stated: the pending source target is *not*
snapshotted on entering `picking.moving`.  Starting a cycle, overwriting the
pending source target while the `picking.moving` action is still in flight,
and letting that action complete puts the machine in `picking.lowering` with
a working source target equal to the overwritten value, different from the
pending value that was current when `picking.moving` was entered. -/
theorem working_snapshot_counterexample :
    (runEv (initMachine simEx) overwriteEvs).state = RState.picking_lowering ∧
    (runEv (initMachine simEx) overwriteEvs).cube_start_position =
      ⟨-650, 600, 0⟩ ∧
    (initMachine simEx).cube_start_position =
      ⟨TABLE_A_CENTER_X, TABLE_A_CENTER_Y, 0⟩ ∧
    (runEv (initMachine simEx) overwriteEvs).cube_start_position ≠
      (initMachine simEx).cube_start_position := by
  refine ⟨rfl, rfl, rfl, ?_⟩
  intro h
  rw [show (runEv (initMachine simEx) overwriteEvs).cube_start_position =
      (⟨-650, 600, 0⟩ : Position) from rfl,
    show (initMachine simEx).cube_start_position =
      (⟨TABLE_A_CENTER_X, TABLE_A_CENTER_Y, 0⟩ : Position) from rfl] at h
  have hy : (600 : ℝ) = TABLE_A_CENTER_Y := congrArg Position.y h
  rw [tableA_center_y] at hy
  norm_num at hy

/-! ### Claim C2: `start()` and the Conflict error -/

/-- C2 (amended): `start()` succeeds and transitions to `picking.moving`
exactly from `ready` and `home.home` — the two source states of the `start`
transitions in `TRANSITIONS`.  From every other state, including the idle
state `sequence_finished.finished`, it fails with the Conflict error
(`MachineError`) and leaves the machine unchanged. -/
theorem start_succeeds_or_conflicts (m : MachineState) :
    ((m.state = RState.ready ∨ m.state = RState.home_home) →
      (startOp m).1 = true ∧ (startOp m).2.state = RState.picking_moving) ∧
    (m.state ≠ RState.ready → m.state ≠ RState.home_home →
      startOp m = (false, m)) := by
  obtain ⟨s, p, q, c, d, f, r, g⟩ := m
  constructor
  · intro hidle
    cases s
    case ready => exact ⟨rfl, rfl⟩
    case home_home => exact ⟨rfl, rfl⟩
    all_goals
      rcases hidle with h | h <;> exact RState.noConfusion h
  · intro h1 h2
    cases s
    case ready => exact absurd rfl h1
    case home_home => exact absurd rfl h2
    all_goals rfl

/-- Closed check for C2: `start()` fires from a fresh machine in `ready`, and
is rejected without a state change in `picking.closing`. -/
theorem start_succeeds_or_conflicts_witness :
    (startOp (initMachine simEx)).1 = true ∧
    (startOp (initMachine simEx)).2.state = RState.picking_moving ∧
    startOp mBusy = (false, mBusy) := by
  obtain ⟨h1, h2⟩ :=
    (start_succeeds_or_conflicts (initMachine simEx)).1 (Or.inl rfl)
  exact ⟨h1, h2,
    (start_succeeds_or_conflicts mBusy).2 (by decide) (by decide)⟩

/-- Counterexample to C2 as stated: `sequence_finished.finished` is one of
the `IDLE_STATES` (so the machine reports itself idle there), yet
`TRANSITIONS` has no `start` transition out of it, so `start()` fails with
the Conflict error and the machine is left unchanged instead of moving to
`picking.moving`. -/
theorem start_from_finished_counterexample :
    mFin.state = RState.sequence_finished ∧
    robot_is_idle mFin = true ∧
    startOp mFin = (false, mFin) :=
  ⟨rfl, rfl, rfl⟩

/-! ### Claim C3: home requests, immediate and deferred -/

/-- C3: `move_home()` invoked while idle fires the `home` trigger
immediately, landing in `home.moving` (whose entry clears the deferred-home
flag); invoked while busy it changes nothing but the deferred-home flag,
which it sets; and when the in-flight action of any action state completes
with the flag set, `_change_state` fires `home` instead of the natural
trigger, so the next state is `home.moving` — regardless of which action
just finished — with the flag cleared as the diversion begins. -/
theorem move_home_immediate_or_deferred (m : MachineState) :
    (robot_is_idle m = true →
      (move_home m).state = RState.home_moving ∧
      (move_home m).move_home_requested = false) ∧
    (robot_is_idle m = false →
      move_home m = { m with move_home_requested := true }) ∧
    (m.move_home_requested = true → isActionState m.state = true →
      (completeAction m).state = RState.home_moving ∧
      (completeAction m).move_home_requested = false) := by
  obtain ⟨s, p, q, c, d, f, r, g⟩ := m
  refine ⟨?_, ?_, ?_⟩
  · intro hidle
    cases s
    case ready => exact ⟨rfl, rfl⟩
    case home_home => exact ⟨rfl, rfl⟩
    case sequence_finished => exact ⟨rfl, rfl⟩
    all_goals exact Bool.noConfusion hidle
  · intro hbusy
    cases s
    case ready => exact Bool.noConfusion hbusy
    case home_home => exact Bool.noConfusion hbusy
    case sequence_finished => exact Bool.noConfusion hbusy
    all_goals rfl
  · intro hflag hact
    cases hflag
    cases s
    case picking_moving => exact ⟨rfl, rfl⟩
    case picking_lowering => exact ⟨rfl, rfl⟩
    case picking_closing => exact ⟨rfl, rfl⟩
    case transporting_lifting => exact ⟨rfl, rfl⟩
    case transporting_moving => exact ⟨rfl, rfl⟩
    case placing_lowering => exact ⟨rfl, rfl⟩
    case placing_opening => exact ⟨rfl, rfl⟩
    case placing_lifting => exact ⟨rfl, rfl⟩
    case home_moving => exact ⟨rfl, rfl⟩
    case home_opening => exact ⟨rfl, rfl⟩
    all_goals exact Bool.noConfusion hact

/-- Closed check for C3: an idle machine goes straight to `home.moving`; a
busy machine only gets its flag set; a flagged busy machine diverts to
`home.moving` (clearing the flag) when its action completes. -/
theorem move_home_immediate_or_deferred_witness :
    (move_home (initMachine simEx)).state = RState.home_moving ∧
    move_home mBusy = { mBusy with move_home_requested := true } ∧
    (completeAction mFlagged).state = RState.home_moving ∧
    (completeAction mFlagged).move_home_requested = false := by
  refine ⟨((move_home_immediate_or_deferred (initMachine simEx)).1 rfl).1,
    (move_home_immediate_or_deferred mBusy).2.1 rfl, ?_, ?_⟩
  · exact ((move_home_immediate_or_deferred mFlagged).2.2 rfl rfl).1
  · exact ((move_home_immediate_or_deferred mFlagged).2.2 rfl rfl).2

/-! ### Helper lemmas: the motion convergence loops -/

theorem moveToLoop_ok {α : Type} [DecidableEq α]
    (step : SimState α → SimState α × Option String) (target : List α) :
    ∀ (fuel : ℕ) (s : SimState α) (n k : ℕ) (s' : SimState α),
      moveToLoop step target fuel s n = some ⟨Except.ok s', k⟩ →
      s'.current_position = target := by
  intro fuel
  induction fuel with
  | zero =>
    intro s n k s' h
    rw [moveToLoop] at h
    split at h
    · rename_i hc
      simp only [Option.some.injEq, MoveOutcome.mk.injEq, Except.ok.injEq] at h
      obtain ⟨rfl, -⟩ := h
      exact hc
    · exact Option.noConfusion h
  | succ fuel ih =>
    intro s n k s' h
    rw [moveToLoop] at h
    split at h
    · rename_i hc
      simp only [Option.some.injEq, MoveOutcome.mk.injEq, Except.ok.injEq] at h
      obtain ⟨rfl, -⟩ := h
      exact hc
    · split at h
      · simp only [Option.some.injEq, MoveOutcome.mk.injEq] at h
        exact Except.noConfusion h.1
      · exact ih _ _ _ _ h

theorem moveToLoop_first_error {α : Type} [DecidableEq α]
    (step : SimState α → SimState α × Option String) (target : List α)
    (fuel n : ℕ) (s s₂ : SimState α) (e : String)
    (h1 : s.current_position ≠ target) (h2 : step s = (s₂, some e)) :
    moveToLoop step target (fuel + 1) s n = some ⟨Except.error e, n + 1⟩ := by
  rw [moveToLoop, if_neg h1, h2]

theorem moveHomeLoop_ok {α : Type} [DecidableEq α]
    (step : SimState α → SimState α × Option String) :
    ∀ (fuel : ℕ) (s : SimState α) (n k : ℕ) (s' : SimState α),
      moveHomeLoop step fuel s n = some ⟨Except.ok s', k⟩ →
      s'.current_position = s'.home_position := by
  intro fuel
  induction fuel with
  | zero =>
    intro s n k s' h
    rw [moveHomeLoop] at h
    split at h
    · rename_i hc
      simp only [Option.some.injEq, MoveOutcome.mk.injEq, Except.ok.injEq] at h
      obtain ⟨rfl, -⟩ := h
      exact hc
    · exact Option.noConfusion h
  | succ fuel ih =>
    intro s n k s' h
    rw [moveHomeLoop] at h
    split at h
    · rename_i hc
      simp only [Option.some.injEq, MoveOutcome.mk.injEq, Except.ok.injEq] at h
      obtain ⟨rfl, -⟩ := h
      exact hc
    · split at h
      · simp only [Option.some.injEq, MoveOutcome.mk.injEq] at h
        exact Except.noConfusion h.1
      · exact ih _ _ _ _ h

theorem moveHomeLoop_first_error {α : Type} [DecidableEq α]
    (step : SimState α → SimState α × Option String)
    (fuel n : ℕ) (s s₂ : SimState α) (e : String)
    (h1 : s.current_position ≠ s.home_position) (h2 : step s = (s₂, some e)) :
    moveHomeLoop step (fuel + 1) s n = some ⟨Except.error e, n + 1⟩ := by
  rw [moveHomeLoop, if_neg h1, h2]

/-! ### Claim C4: fault escalation by the spawn wrapper -/

/-- C4: an exception raised inside any spawned per-state action fires the
global-to-fault trigger, so the machine lands in `fault` from every state;
`fault` has no in-flight action and no entry hook, so no further automatic
transition occurs after it; and a motion primitive that reports an error on
its very first call makes the awaited `move_to_position` fail immediately
with a Motion Fault carrying that error — the exception the wrapper converts
into the fault transition. -/
theorem fault_escalation {α : Type} [DecidableEq α]
    (m : MachineState)
    (prim : SimState α → List α → ℕ → SimState α × Option String)
    (s s₂ : SimState α) (target : List α) (e : String) (fuel : ℕ) :
    (failAction m).state = RState.fault ∧
    completeAction (failAction m) = failAction m ∧
    (m.state = RState.fault → completeAction m = m) ∧
    (s.current_position ≠ target →
      prim s target REGULAR_MOVEMENT_SPEED = (s₂, some e) →
      move_to_position prim (fuel + 1) s target =
        some ⟨Except.error e, 1⟩) := by
  obtain ⟨st, p, q, c, d, f, r, g⟩ := m
  refine ⟨?_, ?_, ?_, ?_⟩
  · cases st <;> rfl
  · cases st <;> rfl
  · intro h
    cases st
    case fault => rfl
    all_goals exact RState.noConfusion h
  · intro h1 h2
    exact moveToLoop_first_error _ _ fuel 0 s s₂ e h1 h2

/-- Closed check for C4: from a faulted machine no completion changes
anything, a failing action in `picking.closing` faults the machine, and the
always-erroring primitive fails `move_to_position` on its first tick. -/
theorem fault_escalation_witness :
    (failAction mBusy).state = RState.fault ∧
    completeAction mFault = mFault ∧
    move_to_position primBoom 1 simQ [2, 2, 2] =
      some ⟨Except.error "motion error", 1⟩ := by
  refine ⟨(fault_escalation mBusy primBoom simQ simQ [2, 2, 2] "e" 0).1, ?_, ?_⟩
  · exact (fault_escalation mFault primBoom simQ simQ [2, 2, 2] "e" 0).2.2.1 rfl
  · exact (fault_escalation mFault primBoom simQ simQ [2, 2, 2]
      "motion error" 0).2.2.2 (by decide) rfl

/-! ### Claim C6: the blocking motion operations of the Actuator Controller -/

/-- C6: `move_to_position` and `move_to_home_position` return successfully
only once the actuator's current position equals the target exactly; each
tick invokes the motion primitive with the target and the speed preset for
that kind of move (`REGULAR_MOVEMENT_SPEED` for transfers,
`HOME_MOVEMENT_SPEED` for homing, fixed by their definitions); and on any
tick where the primitive reports an error — here the first — the operation
fails immediately with a Motion Fault carrying that error, having performed
exactly that one primitive call. -/
theorem move_operations_converge_or_fault {α : Type} [DecidableEq α]
    (prim : SimState α → List α → ℕ → SimState α × Option String)
    (prim_home : SimState α → ℕ → SimState α × Option String)
    (fuel : ℕ) (s s₂ : SimState α) (target : List α) (e : String) :
    (∀ (k : ℕ) (s' : SimState α),
      move_to_position prim fuel s target = some ⟨Except.ok s', k⟩ →
      s'.current_position = target) ∧
    (s.current_position ≠ target →
      prim s target REGULAR_MOVEMENT_SPEED = (s₂, some e) →
      move_to_position prim (fuel + 1) s target =
        some ⟨Except.error e, 1⟩) ∧
    (∀ (k : ℕ) (s' : SimState α),
      move_to_home_position prim_home fuel s = some ⟨Except.ok s', k⟩ →
      s'.current_position = s'.home_position) ∧
    (s.current_position ≠ s.home_position →
      prim_home s HOME_MOVEMENT_SPEED = (s₂, some e) →
      move_to_home_position prim_home (fuel + 1) s =
        some ⟨Except.error e, 1⟩) := by
  refine ⟨?_, ?_, ?_, ?_⟩
  · intro k s' h
    exact moveToLoop_ok _ target fuel s 0 k s' h
  · intro h1 h2
    exact moveToLoop_first_error _ _ fuel 0 s s₂ e h1 h2
  · intro k s' h
    exact moveHomeLoop_ok _ fuel s 0 k s' h
  · intro h1 h2
    exact moveHomeLoop_first_error _ fuel 0 s s₂ e h1 h2

/-- Closed check for C6: with a one-tick primitive the transfer move returns
with the position equal to the target and the homing move with the position
equal to the home position; with the always-erroring primitives both fail on
the first tick carrying the error. -/
theorem move_operations_converge_or_fault_witness :
    ({ simQ with current_position := [2, 2, 2] } : SimState ℚ).current_position
      = [2, 2, 2] ∧
    ({ simQ with current_position := simQ.home_position } :
      SimState ℚ).current_position =
      ({ simQ with current_position := simQ.home_position } :
        SimState ℚ).home_position ∧
    move_to_position primBoom 1 simQ [2, 2, 2] =
      some ⟨Except.error "motion error", 1⟩ ∧
    move_to_home_position primHomeBoom 1 simQ =
      some ⟨Except.error "homing error", 1⟩ := by
  refine ⟨?_, ?_, ?_, ?_⟩
  · exact (move_operations_converge_or_fault primJump primHomeJump 1 simQ simQ
      [2, 2, 2] "e").1 1 _ rfl
  · exact (move_operations_converge_or_fault primJump primHomeJump 1 simQ simQ
      [2, 2, 2] "e").2.2.1 1 _ rfl
  · exact (move_operations_converge_or_fault primBoom primHomeBoom 0 simQ simQ
      [2, 2, 2] "motion error").2.1 (by decide) rfl
  · exact (move_operations_converge_or_fault primBoom primHomeBoom 0 simQ simQ
      [2, 2, 2] "homing error").2.2.2 (by decide) rfl

/-! ### Claim C7: the frame of `set_home_position` -/

/-- C7 (amended): `set_home_position(p)` stores `p` as the home position —
`get_home_position` subsequently returns `p` — and leaves the current
position and the gripper state unchanged, but it does *not* leave the whole
rest of the actuator state unchanged: it deliberately resets the internal
motion-planning `axis_speed` to `[0, 0, 0]` to force a motion replan. -/
theorem set_home_position_frame (s : SimState ℚ) (p : List ℚ) :
    get_home_position (set_home_position s p) = p ∧
    (set_home_position s p).current_position = s.current_position ∧
    (set_home_position s p).gripper_state = s.gripper_state ∧
    (set_home_position s p).axis_speed = [0, 0, 0] :=
  ⟨rfl, rfl, rfl, rfl⟩

/-- Counterexample to C7 as stated: on an actuator whose axis speed is
`[1, 2, 3]`, `set_home_position` changes the axis speed (to `[0, 0, 0]`), so
it does have a side effect beyond the stored home position. -/
theorem set_home_position_counterexample :
    (set_home_position ⟨[5], [6], GripperState.OPEN, [1, 2, 3]⟩ [7]).axis_speed ≠
      (⟨[5], [6], GripperState.OPEN, [1, 2, 3]⟩ : SimState ℚ).axis_speed := by
  decide

/-! ### Claim C5: the fault-free full-cycle scenario -/

set_option maxHeartbeats 2000000 in
/-- C5 (amended): starting at `ready` with the pending targets at their
defaults (the zone centroids) and a fault-free primitive, the machine passes
exactly through the non-home states of the transition table in table order,
ending at `sequence_finished.finished` — but the final
`get_current_position()` is the destination's `(x, y)` at
`LIFTING_HEIGHT_ABOVE_TABLE`, where `_lift_after_placement` left the gantry,
not the destination coordinate itself. -/
theorem full_cycle_scenario (r : SimState ℝ) :
    traceEv (initMachine r) cycleEvs =
      [RState.ready, RState.picking_moving, RState.picking_lowering,
        RState.picking_closing, RState.transporting_lifting,
        RState.transporting_moving, RState.placing_lowering,
        RState.placing_opening, RState.placing_lifting,
        RState.sequence_finished] ∧
    get_current_position (runEv (initMachine r) cycleEvs).robot =
      [DEFAULT_DESTINATION_POSITION.x, DEFAULT_DESTINATION_POSITION.y,
        LIFTING_HEIGHT_ABOVE_TABLE] :=
  ⟨rfl, rfl⟩

set_option maxHeartbeats 2000000 in
/-- Counterexample to C5's final conjunct as stated: at the end of the
fault-free default cycle the current position differs from the destination
coordinate — its `z` is `LIFTING_HEIGHT_ABOVE_TABLE = 300`, not the
destination's `z = 0`. -/
theorem full_cycle_final_position_counterexample :
    (runEv (initMachine simEx) cycleEvs).state = RState.sequence_finished ∧
    get_current_position (runEv (initMachine simEx) cycleEvs).robot ≠
      DEFAULT_DESTINATION_POSITION.to_list := by
  refine ⟨rfl, ?_⟩
  intro h
  rw [show get_current_position (runEv (initMachine simEx) cycleEvs).robot =
      [TABLE_B_CENTER_X, TABLE_B_CENTER_Y, LIFTING_HEIGHT_ABOVE_TABLE]
      from rfl,
    show DEFAULT_DESTINATION_POSITION.to_list =
      [TABLE_B_CENTER_X, TABLE_B_CENTER_Y, 0] from rfl] at h
  simp only [List.cons.injEq, and_true, true_and] at h
  rw [LIFTING_HEIGHT_ABOVE_TABLE] at h
  norm_num at h

/-! ### Claim C10: default targets are the table centroids -/

set_option maxHeartbeats 2000000 in
/-- C10: a freshly constructed controller has its pending and working source
targets both equal to the centroid of `TABLE_A_POLYGON` at `z = 0` and its
pending and working destination targets both equal to the centroid of
`TABLE_B_POLYGON` at `z = 0`; hence in a cycle started without the caller
ever setting a target, the gantry descends onto the table-A centroid during
picking and onto the table-B centroid during placing. -/
theorem default_targets_are_centroids (r : SimState ℝ) :
    (initMachine r).next_cube_start_position =
      ⟨TABLE_A_CENTER_X, TABLE_A_CENTER_Y, 0⟩ ∧
    (initMachine r).cube_start_position =
      ⟨TABLE_A_CENTER_X, TABLE_A_CENTER_Y, 0⟩ ∧
    (initMachine r).next_cube_end_position =
      ⟨TABLE_B_CENTER_X, TABLE_B_CENTER_Y, 0⟩ ∧
    (initMachine r).cube_end_position =
      ⟨TABLE_B_CENTER_X, TABLE_B_CENTER_Y, 0⟩ ∧
    get_current_position
        (runEv (initMachine r) [Ev.startEv, Ev.complete, Ev.complete]).robot =
      [TABLE_A_CENTER_X, TABLE_A_CENTER_Y, 0] ∧
    get_current_position
        (runEv (initMachine r) [Ev.startEv, Ev.complete, Ev.complete,
          Ev.complete, Ev.complete, Ev.complete, Ev.complete]).robot =
      [TABLE_B_CENTER_X, TABLE_B_CENTER_Y, 0] :=
  ⟨rfl, rfl, rfl, rfl, rfl, rfl⟩

end Gantry
